import Mathlib

/-!
Verification of the musicgram-backend reconciliation core.

Shallow embedding of the Python sources:
  * `app/services/updater.py`   — diff rule, per-user update step, manual trigger
  * `app/services/channel_service.py` — transient service-message tracker
  * `app/bot/utils/channel.py`  — `edit_message` outcome handling
  * `app/bot/utils/progress.py` — progress bar / channel title rendering

Python strings are embedded as `List Char` (Python `len`/slicing operate on
code points, exactly the `Char` sequence of the Lean string literal).
Machine arithmetic is exact (`Int`/`Nat`); Python's float division followed by
`int(...)` truncation is modelled as exact rational floor, i.e.
`int(length * (current/total)) = length * current / total` in `Nat`.
Wall-clock time is passed explicitly as an `Int` number of milliseconds.
Fallible I/O (Telegram round-trips, token refresh) is modelled by explicit
outcome parameters.  Definitions come first, all theorems follow.
-/

/-- A parsed track, as produced by `SpotifyService.parse_track_data`
(`app/services/spotify.py`).  Fields read with `dict.get(k)` are `Option`s. -/
structure Track where
  id : Option String
  name : Option String
  artist : Option String
  image_url : Option String
  duration_ms : Int
  progress_ms : Int
  is_playing : Bool
deriving DecidableEq

/-- The persisted per-channel row fields used by the updater
(`app/database/models.py` / the selected columns in `updater.py`). -/
structure ChannelRecord where
  last_track_id : Option String
  last_track_name : Option String
  last_track_artist : Option String
  last_track_image_url : Option String
  last_message_id : Option Int
deriving DecidableEq

/-- `TrackUpdater._should_update_channel` (`app/services/updater.py:331-357`).
`current_track.get('id') if current_track else None` is `current_track.bind Track.id`;
the final guard `current_track and current_track.get('is_playing')` is the
playing flag of the present track. -/
def should_update_channel (last_track_id : Option String)
    (current_track : Option Track) : Bool :=
  let current_track_id := current_track.bind Track.id
  if last_track_id = none then true
  else if current_track_id ≠ last_track_id then true
  else if (match current_track with | some t => t.is_playing | none => false) then true
  else false

/-- A not-playing track with identifier "A", used as a concrete test point. -/
def trackA_paused : Track :=
  { id := some "A", name := some "A side", artist := some "Band"
    image_url := none, duration_ms := 200000, progress_ms := 1000
    is_playing := false }

/-- A playing track with identifier "B": the fresh observation in the failing
input for the snapshot-persistence claim. -/
def trackB_playing : Track :=
  { id := some "B", name := some "B side", artist := some "Band"
    image_url := some "http://i/b.jpg", duration_ms := 180000, progress_ms := 0
    is_playing := true }

/-- A persisted row currently showing track "A": the pre-state of the failing
input for the snapshot-persistence claim. -/
def chA_record : ChannelRecord :=
  { last_track_id := some "A", last_track_name := some "A side",
    last_track_artist := some "Band", last_track_image_url := none,
    last_message_id := some 7 }

/-- `TrackUpdater._save_channel_state` (`app/services/updater.py:389-436`):
with a track the four snapshot columns get the track's (optional) fields,
without one they are all cleared to nulls.  The db commit/rollback mechanics
are outside the model. -/
def save_channel_state (ch : ChannelRecord) (track_data : Option Track) :
    ChannelRecord :=
  match track_data with
  | some t =>
      { ch with last_track_id := t.id, last_track_name := t.name,
                last_track_artist := t.artist, last_track_image_url := t.image_url }
  | none =>
      { ch with last_track_id := none, last_track_name := none,
                last_track_artist := none, last_track_image_url := none }

/-- Outcome of one `_update_single_user` call, mirroring its control flow:
early return on missing/unrefreshable token, skip when the diff rule says no,
persist when `_update_user_channel` reports success, and leave the row alone
(warning only) when it reports failure — a branch that is dead in the source,
because `_update_user_channel` reports success unconditionally (see
`update_user_channel` below). -/
inductive UpdateOutcome where
  | no_token
  | updated
  | update_failed
  | skipped
deriving DecidableEq

/-- Outcomes of the individual Telegram round-trips attempted during one
`update_channel_content` run: `setChatTitle`, `setChatPhoto` and
`editMessageText` each succeed or fail. -/
structure TransportOutcomes where
  set_title_ok : Bool
  set_photo_ok : Bool
  edit_ok : Bool
deriving DecidableEq

/-- `ChannelManager.update_channel_content` (`app/bot/utils/channel.py:324-419`).
The booleans returned by `update_channel_title` (l. 347), `update_channel_photo`
(l. 352) and `edit_message` (l. 379) are discarded, and the whole body sits in
`try: ... except Exception: logger.error` (l. 418-419), so the call returns
normally (Python `None`) whatever the transport outcomes were. -/
def update_channel_content (transport : TransportOutcomes) : Unit :=
  let _ := transport
  ()

/-- `TrackUpdater._update_user_channel` (`app/services/updater.py:359-387`):
awaits `update_channel_content` and returns `True`; its `except` branch
returning `False` is unreachable, because `update_channel_content` never
raises — every transport failure has already been swallowed inside it. -/
def update_user_channel (transport : TransportOutcomes) : Bool :=
  let _ := update_channel_content transport
  true

/-- Every Telegram round-trip failing (e.g. HTTP 400 responses throughout). -/
def transport_all_failed : TransportOutcomes :=
  { set_title_ok := false, set_photo_ok := false, edit_ok := false }

/-- Every Telegram round-trip succeeding. -/
def transport_all_ok : TransportOutcomes :=
  { set_title_ok := true, set_photo_ok := true, edit_ok := true }

/-- `TrackUpdater._update_single_user` (`app/services/updater.py:208-257`).
`access_token_ok` stands for `_ensure_valid_token` returning a token;
`current_track` for the `_get_user_current_track` result (None both on silence
and on source errors); `transport` for the fates of the Telegram calls made
under `_update_user_channel`.  Returns the persisted channel row after the
call together with the path taken.  The `update_failed` branch mirrors the
`else:` at `updater.py:249-250`, dead in the source since
`_update_user_channel` always reports success. -/
def update_single_user (ch : ChannelRecord) (access_token_ok : Bool)
    (current_track : Option Track) (transport : TransportOutcomes) :
    ChannelRecord × UpdateOutcome :=
  if !access_token_ok then (ch, .no_token)
  else if should_update_channel ch.last_track_id current_track then
    if update_user_channel transport then
      (save_channel_state ch current_track, .updated)
    else (ch, .update_failed)
  else (ch, .skipped)

/-- The four persisted snapshot columns of a channel row. -/
def snapshot_fields (ch : ChannelRecord) :
    Option String × Option String × Option String × Option String :=
  (ch.last_track_id, ch.last_track_name, ch.last_track_artist, ch.last_track_image_url)

/-- The snapshot an observation should persist: the track's fields, or all
nulls when nothing is playing. -/
def observed_snapshot (current_track : Option Track) :
    Option String × Option String × Option String × Option String :=
  match current_track with
  | some t => (t.id, t.name, t.artist, t.image_url)
  | none => (none, none, none, none)

/-- `TrackUpdater.update_user_manually` (`app/services/updater.py:438-492`).
`row` is the joined user/channel record looked up by telegram id (`None` when
the user or channel is missing).  When a row is found the code runs
`_update_single_user` — which catches every exception itself — and then
returns `True` unconditionally; the boolean is `False` only for a missing row
(or a database error, outside the model).  The second component records what
the inner call did, for inspection. -/
def update_user_manually (row : Option ChannelRecord) (access_token_ok : Bool)
    (current_track : Option Track) (transport : TransportOutcomes) :
    Bool × Option (ChannelRecord × UpdateOutcome) :=
  match row with
  | none => (false, none)
  | some ch =>
      (true, some (update_single_user ch access_token_ok current_track transport))

/-! ## Transient service-message tracker (`app/services/channel_service.py`) -/

/-- `dict.get(k)` on a Python dict embedded as an association list. -/
def dictGet {α : Type} (k : String) : List (String × α) → Option α
  | [] => none
  | (k', v) :: rest => if k' = k then some v else dictGet k rest

/-- `dict[k] = v`: replace the entry in place, or append a fresh one. -/
def dictSet {α : Type} (k : String) (v : α) : List (String × α) → List (String × α)
  | [] => [(k, v)]
  | (k', v') :: rest => if k' = k then (k, v) :: rest else (k', v') :: dictSet k v rest

/-- `dict.pop(k, None)`: drop the entry for `k`, if any (keys are unique, so
removing every occurrence coincides with removing the one entry). -/
def dictPop {α : Type} (k : String) : List (String × α) → List (String × α)
  | [] => []
  | (k', v) :: rest => if k' = k then dictPop k rest else (k', v) :: dictPop k rest

/-- `set.add(x)` on a Python set embedded as a duplicate-free list. -/
def setAdd (x : String) (s : List String) : List String :=
  if x ∈ s then s else x :: s

/-- `set.discard(x)`. -/
def setDiscard (x : String) : List String → List String
  | [] => []
  | y :: rest => if y = x then setDiscard x rest else y :: setDiscard x rest

/-- `ServiceMessageTracker` state (`app/services/channel_service.py:14-21`):
the tracked-channel set, the per-channel captured message ids, the per-channel
time of the last `start_tracking`, and the `auto_delete` switch (the global
instance is constructed with `auto_delete=True`).  Times are `Int`
milliseconds of an explicit clock. -/
structure ServiceMessageTracker where
  tracked_channels : List String
  service_messages : List (String × List Int)
  last_action_time : List (String × Int)
  auto_delete : Bool
deriving DecidableEq

/-- `ServiceMessageTracker.__init__` (fresh tracker, nothing tracked). -/
def ServiceMessageTracker.new (auto_delete : Bool) : ServiceMessageTracker :=
  { tracked_channels := [], service_messages := [], last_action_time := [],
    auto_delete := auto_delete }

/-- `start_tracking` (`channel_service.py:23-28`): mark the channel tracked,
clear its captured list, and stamp the current time. -/
def start_tracking (s : ServiceMessageTracker) (channel_username : String)
    (now : Int) : ServiceMessageTracker :=
  { s with tracked_channels := setAdd channel_username s.tracked_channels,
           service_messages := dictSet channel_username [] s.service_messages,
           last_action_time := dictSet channel_username now s.last_action_time }

/-- `stop_tracking` (`channel_service.py:30-38`): return the captured ids
(`.get(ch, [])`) and forget the channel from all three containers
(`discard` / `pop(ch, None)` — total, no exception on an untracked channel). -/
def stop_tracking (s : ServiceMessageTracker) (channel_username : String) :
    List Int × ServiceMessageTracker :=
  ((dictGet channel_username s.service_messages).getD [],
   { s with tracked_channels := setDiscard channel_username s.tracked_channels,
            service_messages := dictPop channel_username s.service_messages,
            last_action_time := dictPop channel_username s.last_action_time })

/-- `is_tracking` (`channel_service.py:54-56`). -/
def is_tracking (s : ServiceMessageTracker) (channel_username : String) : Bool :=
  decide (channel_username ∈ s.tracked_channels)

/-- `add_service_message` (`channel_service.py:40-52`): when the channel is
tracked, has a recorded action time, and the observation is within 10 seconds
(10000 ms) of it, either opportunistically delete the message (the second
component carries the id handed to `delete_channel_msg`) or record it;
otherwise do nothing. -/
def add_service_message (s : ServiceMessageTracker) (channel_username : String)
    (message_id : Int) (now : Int) : ServiceMessageTracker × Option Int :=
  if channel_username ∈ s.tracked_channels then
    match dictGet channel_username s.last_action_time with
    | some t0 =>
        if now - t0 < 10000 then
          if s.auto_delete then (s, some message_id)
          else
            let captured :=
              (dictGet channel_username s.service_messages).getD [] ++ [message_id]
            ({ s with service_messages :=
                dictSet channel_username captured s.service_messages }, none)
        else (s, none)
    | none => (s, none)
  else (s, none)

/-- The reachable-state invariant of the tracker: only tracked channels have a
captured-message entry.  It holds for a fresh tracker and is preserved by all
three mutating operations (theorems below). -/
def TrackerInv (s : ServiceMessageTracker) : Prop :=
  ∀ c : String, c ∉ s.tracked_channels → dictGet c s.service_messages = none

/-! ## Channel transport: `edit_message` (`app/bot/utils/channel.py:207-246`) -/

/-- Python `str.startswith` on code-point lists (needle first). -/
def charsMatch : List Char → List Char → Bool
  | [], _ => true
  | _ :: _, [] => false
  | c :: n, h :: t => if c = h then charsMatch n t else false

/-- Python's `needle in haystack` substring test on code-point lists. -/
def containsSubstring (needle : List Char) : List Char → Bool
  | [] => charsMatch needle []
  | h :: t => charsMatch needle (h :: t) || containsSubstring needle t

/-- What one `editMessageText` round-trip can come back as: an HTTP response
(status code, the parsed body's `ok` flag, and the raw body text), or an
exception raised during the request. -/
inductive TelegramResult where
  | response (status : Nat) (ok : Bool) (body : List Char)
  | failure
deriving DecidableEq

/-- The error-description phrase the code special-cases (already lowercase). -/
def notModifiedText : List Char := "message is not modified".data

/-- `ChannelManager.edit_message` (`app/bot/utils/channel.py:207-246`): `True`
on a 200/`ok` response; otherwise `True` iff the lowered response text
contains "message is not modified"; `False` on every other response and on an
exception (the outer `except` swallows it). -/
def edit_message (r : TelegramResult) : Bool :=
  match r with
  | .failure => false
  | .response status ok body =>
      if status = 200 && ok then true
      else if containsSubstring notModifiedText (body.map Char.toLower) then true
      else false

/-! ## Progress renderer (`app/bot/utils/progress.py`) -/

/-- `format_time` (`progress.py:1-16`): clamp below at 0, then `M:SS` with the
seconds zero-padded to two digits (`seconds < 60`, so one leading zero at
most). -/
def format_time (ms : Int) : List Char :=
  let ms := if ms < 0 then 0 else ms
  let minutes := ms.toNat / 60000
  let seconds := (ms.toNat % 60000) / 1000
  (Nat.repr minutes).data ++ ":".data ++
    (if seconds < 10 then "0".data ++ (Nat.repr seconds).data
     else (Nat.repr seconds).data)

/-- The glyph portion of `create_progress_bar` (`progress.py:34-41`): the
clamped position, `filled_length = int(length * progress)` (exact floor of
`length * current / total`), the filled run, the optional transitional dot,
and the `max(0, …)` of empty padding (`Nat` subtraction is that `max`). -/
def progressGlyphs (current_ms total_ms : Int) (length : Nat) : List Char :=
  let current := max 0 (min current_ms total_ms)
  let filled_length := length * current.toNat / total_ms.toNat
  let dotLen : Nat := if filled_length < length then 1 else 0
  List.replicate filled_length '━' ++
    (if filled_length < length then ['●'] else []) ++
    List.replicate (length - filled_length - dotLen) '─'

/-- `create_progress_bar` (`progress.py:19-46`), with the Python default
`length=15` made explicit at call sites: the placeholder bar when
`total_ms <= 0`, otherwise elapsed time, the glyph run, and the remaining
time prefixed by `-`. -/
def create_progress_bar (current_ms total_ms : Int) (length : Nat) : List Char :=
  if total_ms ≤ 0 then "-:- ".data ++ List.replicate length '─' ++ " -:-".data
  else
    let current := max 0 (min current_ms total_ms)
    format_time current ++ " ".data ++ progressGlyphs current_ms total_ms length ++
      " -".data ++ format_time (total_ms - current)

/-- `create_channel_title` (`progress.py:123-151`): the fixed silence label
when nothing is playing; otherwise `"🎵 {name} - {artist}"`, truncated when
longer than 100 by keeping `min(len(name), 46)` name characters and
`93 - track_part` artist characters plus an ellipsis. -/
def create_channel_title (track_data : Option Track) : List Char :=
  match track_data with
  | none => "⏸ Ничего не играет".data
  | some t =>
      if !t.is_playing then "⏸ Ничего не играет".data
      else
        let track_name := (t.name.getD "Unknown Track").data
        let artist := (t.artist.getD "Unknown Artist").data
        let max_length := 100
        let title := "🎵 ".data ++ track_name ++ " - ".data ++ artist
        if max_length < title.length then
          let available_length := max_length - 7
          let track_part := min track_name.length (available_length / 2)
          let artist_part := available_length - track_part
          "🎵 ".data ++ track_name.take track_part ++ " - ".data ++
            artist.take artist_part ++ "...".data
        else title

/-- A playing track whose name (46 chars) and artist (50 chars) drive
`create_channel_title` into its truncation branch. -/
def long_track : Track :=
  { id := some "T1", name := some (String.mk (List.replicate 46 'a')),
    artist := some (String.mk (List.replicate 50 'b')), image_url := none,
    duration_ms := 180000, progress_ms := 0, is_playing := true }

/-- A playing track with a short name and artist, kept by the title renderer
without truncation. -/
def short_track : Track :=
  { id := some "S", name := some "Song", artist := some "Band",
    image_url := none, duration_ms := 1000, progress_ms := 0,
    is_playing := true }

/-! ## Theorems -/

/-- **C1** The diff decision reconciles a pair iff the persisted last track id
is null, or the freshly fetched id differs from it, or the ids agree and the
fetched track is actively playing; in particular `lastId = some "A"` with the
same id paused yields `false`, and `lastId = none` always yields `true`. -/
theorem diff_rule_characterization :
    (∀ (lastId : Option String) (cur : Option Track),
      should_update_channel lastId cur = true ↔
        (lastId = none ∨ cur.bind Track.id ≠ lastId ∨
          (cur.bind Track.id = lastId ∧ ∃ t, cur = some t ∧ t.is_playing = true))) ∧
    (∀ cur : Option Track, should_update_channel none cur = true) ∧
    should_update_channel (some "A") (some trackA_paused) = false := by
  refine ⟨?_, ?_, by decide⟩
  · intro lastId cur
    unfold should_update_channel
    rcases cur with _ | t
    · simp only [Option.bind]
      rcases lastId with _ | l <;> simp
    · obtain ⟨tid, tname, tartist, timg, tdur, tprog, tplay⟩ := t
      simp only [Option.bind]
      rcases lastId with _ | l
      · simp
      · by_cases h : tid = some l
        · cases tplay <;> simp [h]
        · simp [h]
  · intro cur
    unfold should_update_channel
    simp

/-- **C2** (the code at the failing input) With a valid token, a persisted
row showing track "A", a freshly observed playing track "B", and every
Telegram round-trip failing, `_update_single_user` still takes the success
path and overwrites all four persisted snapshot columns with track "B"'s
fields: `update_channel_content` discards the transport booleans and swallows
every exception, so `_update_user_channel` reports success and
`_save_channel_state` runs — the snapshot is not left stale for the next
pass's retry, contrary to the claim. -/
theorem snapshot_persisted_despite_transport_failure :
    (update_single_user chA_record true (some trackB_playing)
        transport_all_failed).2 = UpdateOutcome.updated ∧
    snapshot_fields
        (update_single_user chA_record true (some trackB_playing)
          transport_all_failed).1 =
      observed_snapshot (some trackB_playing) ∧
    snapshot_fields
        (update_single_user chA_record true (some trackB_playing)
          transport_all_failed).1 ≠
      snapshot_fields chA_record := by
  decide

/-- **C8 counterexample** The manual trigger returns `true` for a concrete
account whose reconciliation did not succeed: the stored token is expired and
cannot be refreshed, so `_update_single_user` returns after a warning without
reconciling anything, yet `update_user_manually` still reports success — the
returned flag does not indicate whether the reconciliation succeeded. -/
theorem manual_trigger_flag_counterexample :
    (update_user_manually (some chA_record) false none transport_all_ok).1 =
      true ∧
    (update_user_manually (some chA_record) false none transport_all_ok).2 =
      some (chA_record, UpdateOutcome.no_token) ∧
    UpdateOutcome.no_token ≠ UpdateOutcome.updated := by
  decide

/-- **C8 (amended)** The manual trigger's flag reports only whether the
account/channel record was found: it is `row.isSome` whatever the inner
reconciliation did, and the inner error is never propagated (the operation is
a total function of the outcome parameters). -/
theorem manual_trigger_flag_is_row_found (row : Option ChannelRecord)
    (access_token_ok : Bool) (current_track : Option Track)
    (transport : TransportOutcomes) :
    (update_user_manually row access_token_ok current_track transport).1 =
      row.isSome := by
  cases row <;> rfl

/-- **C3** An observation at least 10 seconds after the channel's recorded
tracking start captures nothing: the tracker state is unchanged, no
opportunistic delete is issued, and a subsequent `stop_tracking` returns the
id only if it had been captured before the observation. -/
theorem late_observation_not_captured (s : ServiceMessageTracker)
    (channel_username : String) (message_id t0 now : Int)
    (hlook : dictGet channel_username s.last_action_time = some t0)
    (hlate : t0 + 10000 ≤ now) :
    add_service_message s channel_username message_id now = (s, none) ∧
    (stop_tracking (add_service_message s channel_username message_id now).1
        channel_username).1 =
      (stop_tracking s channel_username).1 ∧
    (message_id ∉ (stop_tracking s channel_username).1 →
      message_id ∉
        (stop_tracking (add_service_message s channel_username message_id now).1
          channel_username).1) := by
  have hcond : ¬ (now - t0 < 10000) := by omega
  have hmain : add_service_message s channel_username message_id now = (s, none) := by
    unfold add_service_message
    by_cases htr : channel_username ∈ s.tracked_channels
    · simp [htr, hlook, hcond]
    · simp [htr]
  refine ⟨hmain, by rw [hmain], fun h => by rwa [hmain]⟩

/-- Closed witness for `late_observation_not_captured`: start tracking at time
0, observe message 42 at 10000 ms — nothing is captured and `stop_tracking`
returns nothing. -/
theorem late_observation_not_captured_witness :
    add_service_message (start_tracking (ServiceMessageTracker.new true) "music" 0)
        "music" 42 10000 =
      (start_tracking (ServiceMessageTracker.new true) "music" 0, none) ∧
    (42 : Int) ∉
      (stop_tracking
        (add_service_message (start_tracking (ServiceMessageTracker.new true) "music" 0)
            "music" 42 10000).1 "music").1 :=
  ⟨(late_observation_not_captured _ "music" 42 0 10000 (by decide) (by decide)).1,
   (late_observation_not_captured _ "music" 42 0 10000 (by decide) (by decide)).2.2
     (by decide)⟩

theorem trackerInv_new (auto_delete : Bool) :
    TrackerInv (ServiceMessageTracker.new auto_delete) :=
  fun _ _ => rfl

theorem dictGet_dictSet {α : Type} (k c : String) (v : α)
    (d : List (String × α)) :
    dictGet c (dictSet k v d) = if k = c then some v else dictGet c d := by
  induction d with
  | nil => simp [dictSet, dictGet]
  | cons p rest ih =>
    by_cases hk : p.1 = k
    · simp only [dictSet, hk, if_true]
      by_cases hc : k = c <;> simp [dictGet, hc, hk]
    · simp only [dictSet, hk, if_false]
      by_cases hc : p.1 = c
      · have : ¬ k = c := fun h => hk (h ▸ hc)
        simp [dictGet, hc, this]
      · simp [dictGet, hc, ih]

theorem dictGet_dictPop {α : Type} (k c : String) (d : List (String × α)) :
    dictGet c (dictPop k d) = if k = c then none else dictGet c d := by
  induction d with
  | nil => simp [dictPop, dictGet]
  | cons p rest ih =>
    obtain ⟨k', v⟩ := p
    by_cases hk : k' = k
    · subst hk
      by_cases hc : k' = c
      · subst hc
        simp [dictPop, dictGet, ih]
      · simp [dictPop, dictGet, hc, ih]
    · by_cases hc : k' = c
      · subst hc
        have hkc : ¬ k = k' := fun h => hk h.symm
        simp [dictPop, dictGet, hk, hkc]
      · simp [dictPop, dictGet, hk, hc, ih]

theorem mem_setDiscard (x c : String) (s : List String) :
    c ∈ setDiscard x s ↔ c ∈ s ∧ c ≠ x := by
  induction s with
  | nil => simp [setDiscard]
  | cons y rest ih =>
    by_cases hy : y = x
    · subst hy
      simp only [setDiscard, if_true]
      rw [ih]
      constructor
      · rintro ⟨hc, hne⟩
        exact ⟨List.mem_cons_of_mem _ hc, hne⟩
      · rintro ⟨hc, hne⟩
        rcases List.mem_cons.mp hc with h | h
        · exact absurd h hne
        · exact ⟨h, hne⟩
    · simp only [setDiscard, hy, if_false, List.mem_cons, ih]
      constructor
      · rintro (h | ⟨hc, hne⟩)
        · exact ⟨Or.inl h, fun hcx => hy (h ▸ hcx)⟩
        · exact ⟨Or.inr hc, hne⟩
      · rintro ⟨h | h, hne⟩
        · exact Or.inl h
        · exact Or.inr ⟨h, hne⟩

theorem trackerInv_start (s : ServiceMessageTracker) (ch : String) (now : Int)
    (h : TrackerInv s) : TrackerInv (start_tracking s ch now) := by
  intro c hc
  simp only [start_tracking, setAdd] at hc ⊢
  rw [dictGet_dictSet]
  by_cases hmem : ch ∈ s.tracked_channels
  · simp only [hmem, if_true] at hc
    have : ¬ ch = c := fun hec => hc (hec ▸ hmem)
    simp [this, h c hc]
  · simp only [hmem, if_false, List.mem_cons] at hc
    push_neg at hc
    have : ¬ ch = c := fun hec => hc.1 hec.symm
    simp [this, h c hc.2]

theorem trackerInv_stop (s : ServiceMessageTracker) (ch : String)
    (h : TrackerInv s) : TrackerInv (stop_tracking s ch).2 := by
  intro c hc
  simp only [stop_tracking] at hc ⊢
  rw [dictGet_dictPop]
  by_cases hec : ch = c
  · simp [hec]
  · simp only [hec, if_false]
    refine h c (fun hmem => hc ?_)
    exact (mem_setDiscard ch c s.tracked_channels).mpr ⟨hmem, fun hcc => hec hcc.symm⟩

theorem trackerInv_add (s : ServiceMessageTracker) (ch : String)
    (message_id now : Int) (h : TrackerInv s) :
    TrackerInv (add_service_message s ch message_id now).1 := by
  unfold add_service_message
  by_cases htr : ch ∈ s.tracked_channels
  · rcases hl : dictGet ch s.last_action_time with _ | t0
    · simpa [htr, hl] using h
    · by_cases hw : now - t0 < 10000
      · cases had : s.auto_delete
        · simp only [htr, if_true, hl, hw, had, Bool.false_eq_true, if_false]
          intro c hc
          simp only at hc ⊢
          rw [dictGet_dictSet]
          have : ¬ ch = c := fun hec => hc (hec ▸ htr)
          simp [this, h c hc]
        · simpa [htr, hl, hw, had] using h
      · simpa [htr, hl, hw] using h
  · simpa [htr] using h

/-- **C10** `stop_tracking` is a total operation: after it returns, the
channel is no longer tracked and the tracker retains neither captured ids nor
a start time for it; and on any reachable state (the tracker invariant) a
channel that is not currently tracked yields the empty list of captured ids. -/
theorem stop_tracking_forgets_channel (s : ServiceMessageTracker)
    (channel_username : String) :
    is_tracking (stop_tracking s channel_username).2 channel_username = false ∧
    dictGet channel_username (stop_tracking s channel_username).2.service_messages =
      none ∧
    dictGet channel_username (stop_tracking s channel_username).2.last_action_time =
      none ∧
    (TrackerInv s → is_tracking s channel_username = false →
      (stop_tracking s channel_username).1 = []) := by
  refine ⟨?_, ?_, ?_, ?_⟩
  · simp only [stop_tracking, is_tracking, decide_eq_false_iff_not]
    intro hmem
    exact ((mem_setDiscard channel_username channel_username _).mp hmem).2 rfl
  · simp only [stop_tracking]
    rw [dictGet_dictPop]
    simp
  · simp only [stop_tracking]
    rw [dictGet_dictPop]
    simp
  · intro hinv htr
    simp only [stop_tracking]
    have : channel_username ∉ s.tracked_channels := by
      simpa [is_tracking] using htr
    rw [hinv channel_username this]
    rfl

/-- Closed witness for `stop_tracking_forgets_channel`, on the reachable state
obtained by starting and stopping tracking for another channel. -/
theorem stop_tracking_forgets_channel_witness :
    is_tracking
        (stop_tracking (start_tracking (ServiceMessageTracker.new true) "other" 5)
          "music").2 "music" = false ∧
    (stop_tracking (start_tracking (ServiceMessageTracker.new true) "other" 5)
        "music").1 = [] :=
  ⟨(stop_tracking_forgets_channel _ "music").1,
   (stop_tracking_forgets_channel
       (start_tracking (ServiceMessageTracker.new true) "other" 5) "music").2.2.2
     (trackerInv_start _ "other" 5 (trackerInv_new true)) (by decide)⟩

/-- **C4** `edit_message` succeeds exactly on a 200/`ok` response or on a
response whose (lowercased) text reports "message is not modified"; it is a
total function of the round-trip outcome — an exception never propagates and
yields `false`, as does any other failure. -/
theorem edit_message_not_modified_is_success :
    (∀ (status : Nat) (ok : Bool) (body : List Char),
      edit_message (.response status ok body) = true ↔
        ((status = 200 ∧ ok = true) ∨
          containsSubstring notModifiedText (body.map Char.toLower) = true)) ∧
    edit_message TelegramResult.failure = false := by
  refine ⟨?_, rfl⟩
  intro status ok body
  unfold edit_message
  by_cases h2 : status = 200 && ok
  · simp only [h2, if_true, true_iff]
    exact Or.inl (by simpa using h2)
  · simp only [h2, if_false]
    by_cases hm : containsSubstring notModifiedText (body.map Char.toLower)
    · simp [hm]
    · simp only [hm, if_false, Bool.false_eq_true, false_iff]
      rintro (⟨hs, ho⟩ | hc)
      · exact h2 (by simp [hs, ho])
      · exact hc.elim

/-- Closed witness for `edit_message_not_modified_is_success`: a 400 response
whose description reports the message was not modified is treated as
success. -/
theorem edit_message_not_modified_is_success_witness :
    edit_message
        (TelegramResult.response 400 false
          ("Bad Request: message is not modified".data)) = true :=
  (edit_message_not_modified_is_success.1 400 false _).mpr (Or.inr (by decide))

theorem digitChar_ne_dot (m : Nat) : Nat.digitChar m ≠ '●' := by
  unfold Nat.digitChar
  rcases Nat.lt_or_ge m 16 with h | h
  · interval_cases m <;> decide
  · have e0 : ¬ m = 0 := by omega
    have e1 : ¬ m = 1 := by omega
    have e2 : ¬ m = 2 := by omega
    have e3 : ¬ m = 3 := by omega
    have e4 : ¬ m = 4 := by omega
    have e5 : ¬ m = 5 := by omega
    have e6 : ¬ m = 6 := by omega
    have e7 : ¬ m = 7 := by omega
    have e8 : ¬ m = 8 := by omega
    have e9 : ¬ m = 9 := by omega
    have ea : ¬ m = 10 := by omega
    have eb : ¬ m = 11 := by omega
    have ec : ¬ m = 12 := by omega
    have ed : ¬ m = 13 := by omega
    have ee : ¬ m = 14 := by omega
    have ef : ¬ m = 15 := by omega
    simp only [e0, e1, e2, e3, e4, e5, e6, e7, e8, e9, ea, eb, ec, ed, ee, ef,
      if_false]
    decide

theorem toDigitsCore_ne_dot (b fuel n : Nat) (ds : List Char)
    (h : ∀ c ∈ ds, c ≠ '●') : ∀ c ∈ Nat.toDigitsCore b fuel n ds, c ≠ '●' := by
  induction fuel generalizing n ds with
  | zero => simpa [Nat.toDigitsCore] using h
  | succ fuel ih =>
    have hstep : ∀ c ∈ (Nat.digitChar (n % b) :: ds), c ≠ '●' := by
      intro c hc
      rcases List.mem_cons.mp hc with h1 | h1
      · exact h1 ▸ digitChar_ne_dot _
      · exact h c h1
    unfold Nat.toDigitsCore
    by_cases hz : n / b = 0
    · simpa [hz] using hstep
    · simpa [hz] using ih (n / b) _ hstep

theorem nat_repr_ne_dot (n : Nat) : ∀ c ∈ (Nat.repr n).data, c ≠ '●' := by
  intro c hc
  exact toDigitsCore_ne_dot 10 (n + 1) n [] (by intro c h; cases h) c hc

theorem pad_seconds_no_dot (s : Nat) :
    '●' ∉ (if s < 10 then "0".data ++ (Nat.repr s).data else (Nat.repr s).data) := by
  intro h
  split at h
  · rcases List.mem_append.mp h with h1 | h1
    · exact absurd h1 (by decide)
    · exact nat_repr_ne_dot _ _ h1 rfl
  · exact nat_repr_ne_dot _ _ h rfl

theorem format_time_no_dot (ms : Int) : '●' ∉ format_time ms := by
  intro hmem
  unfold format_time at hmem
  rcases List.mem_append.mp hmem with h | h
  · rcases List.mem_append.mp h with h1 | h1
    · exact nat_repr_ne_dot _ _ h1 rfl
    · exact absurd h1 (by decide)
  · exact pad_seconds_no_dot _ h

/-- **C6** For any elapsed time and any `total_ms ≤ 0` (in particular 0) the
renderer returns the fixed "unknown duration" placeholder bar, and the result
does not depend on the elapsed argument. -/
theorem unknown_duration_placeholder (current_ms current_ms' total_ms : Int)
    (length : Nat) (h : total_ms ≤ 0) :
    create_progress_bar current_ms total_ms length =
      "-:- ".data ++ List.replicate length '─' ++ " -:-".data ∧
    create_progress_bar current_ms total_ms length =
      create_progress_bar current_ms' total_ms length := by
  unfold create_progress_bar
  simp [h]

/-- Closed witness for `unknown_duration_placeholder`: `total_ms = 0` with two
different elapsed values. -/
theorem unknown_duration_placeholder_witness :
    create_progress_bar 99999 0 15 =
      "-:- ".data ++ List.replicate 15 '─' ++ " -:-".data ∧
    create_progress_bar 99999 0 15 = create_progress_bar 0 0 15 :=
  unknown_duration_placeholder 99999 0 0 15 (by decide)

/-- **C9** For any elapsed value, any positive duration and any bar length,
the glyph portion of the bar is exactly `length` characters wide with at most
one transitional dot, and the rendered bar is the times flanking exactly that
glyph portion. -/
theorem bar_width_constant (current_ms total_ms : Int) (length : Nat)
    (h : 0 < total_ms) :
    (progressGlyphs current_ms total_ms length).length = length ∧
    (progressGlyphs current_ms total_ms length).count '●' ≤ 1 ∧
    create_progress_bar current_ms total_ms length =
      format_time (max 0 (min current_ms total_ms)) ++ " ".data ++
        progressGlyphs current_ms total_ms length ++ " -".data ++
        format_time (total_ms - max 0 (min current_ms total_ms)) := by
  have ht : 0 < total_ms.toNat := by omega
  have hc : (max 0 (min current_ms total_ms)).toNat ≤ total_ms.toNat := by omega
  have hfill :
      length * (max 0 (min current_ms total_ms)).toNat / total_ms.toNat ≤ length := by
    calc length * (max 0 (min current_ms total_ms)).toNat / total_ms.toNat
        ≤ length * total_ms.toNat / total_ms.toNat :=
          Nat.div_le_div_right (Nat.mul_le_mul_left _ hc)
      _ = length := Nat.mul_div_cancel length ht
  refine ⟨?_, ?_, ?_⟩
  · unfold progressGlyphs
    by_cases hlt :
        length * (max 0 (min current_ms total_ms)).toNat / total_ms.toNat < length
    · simp only [hlt, if_true, List.length_append, List.length_replicate,
        List.length_cons, List.length_nil]
      omega
    · simp only [hlt, if_false, List.length_append, List.length_replicate,
        List.length_nil]
      omega
  · unfold progressGlyphs
    by_cases hlt :
        length * (max 0 (min current_ms total_ms)).toNat / total_ms.toNat < length
    · simp only [hlt, if_true, List.count_append, List.count_replicate]
      simp
    · simp only [hlt, if_false, List.count_append, List.count_replicate]
      simp
  · unfold create_progress_bar
    rw [if_neg (by omega)]

/-- Closed witness for `bar_width_constant`: a 15-glyph bar one third of the
way through keeps its full width. -/
theorem bar_width_constant_witness :
    (progressGlyphs 60000 180000 15).length = 15 ∧
    (progressGlyphs 60000 180000 15).count '●' ≤ 1 :=
  ⟨(bar_width_constant 60000 180000 15 (by decide)).1,
   (bar_width_constant 60000 180000 15 (by decide)).2.1⟩

/-- **C5** When the elapsed time reaches or exceeds a positive duration, the
bar is fully filled: the rendered string is the total time, `length` filled
glyphs, and a zero remaining time, and no transitional dot appears anywhere
in it. -/
theorem full_bar_when_elapsed (current_ms total_ms : Int) (length : Nat)
    (h1 : 0 < total_ms) (h2 : total_ms ≤ current_ms) :
    create_progress_bar current_ms total_ms length =
      format_time total_ms ++ " ".data ++ List.replicate length '━' ++
        " -0:00".data ∧
    '●' ∉ create_progress_bar current_ms total_ms length := by
  have hclamp : max 0 (min current_ms total_ms) = total_ms := by omega
  have hfull : progressGlyphs current_ms total_ms length =
      List.replicate length '━' := by
    unfold progressGlyphs
    rw [hclamp]
    have hfl : length * total_ms.toNat / total_ms.toNat = length :=
      Nat.mul_div_cancel length (by omega)
    simp [hfl]
  have hbar : create_progress_bar current_ms total_ms length =
      format_time total_ms ++ " ".data ++ List.replicate length '━' ++
        " -0:00".data := by
    unfold create_progress_bar
    rw [if_neg (by omega)]
    have hsub : total_ms - total_ms = 0 := by omega
    have hf0 : format_time 0 = "0:00".data := by decide
    simp only [hclamp, hfull, hsub, hf0]
    rw [List.append_assoc]
    have htail : " -".data ++ "0:00".data = " -0:00".data := by decide
    rw [htail]
  refine ⟨hbar, ?_⟩
  rw [hbar]
  intro hmem
  rcases List.mem_append.mp hmem with h | h
  · rcases List.mem_append.mp h with h3 | h3
    · rcases List.mem_append.mp h3 with h4 | h4
      · exact format_time_no_dot total_ms h4
      · exact absurd h4 (by decide)
    · exact absurd ((List.eq_of_mem_replicate h3)) (by decide)
  · exact absurd h (by decide)

/-- Closed witness for `full_bar_when_elapsed`: a 200000 ms position on a
180000 ms track renders the fully filled 15-glyph bar. -/
theorem full_bar_when_elapsed_witness :
    create_progress_bar 200000 180000 15 =
      format_time 180000 ++ " ".data ++ List.replicate 15 '━' ++ " -0:00".data ∧
    '●' ∉ create_progress_bar 200000 180000 15 :=
  full_bar_when_elapsed 200000 180000 15 (by decide) (by decide)

theorem charsMatch_append (n s : List Char) : charsMatch n (n ++ s) = true := by
  induction n with
  | nil => rfl
  | cons c t ih => simp [charsMatch, ih]

theorem charsMatch_refl (n : List Char) : charsMatch n n = true := by
  simpa using charsMatch_append n []

theorem containsSubstring_of_match (n h : List Char) (hm : charsMatch n h = true) :
    containsSubstring n h = true := by
  cases h with
  | nil => simpa [containsSubstring] using hm
  | cons c t => simp [containsSubstring, hm]

theorem containsSubstring_append_left (p n h : List Char)
    (hc : containsSubstring n h = true) : containsSubstring n (p ++ h) = true := by
  induction p with
  | nil => simpa using hc
  | cons c p ih => simp [containsSubstring, ih]

/-- **C7 counterexample** A playing track with a 46-character name and a
50-character artist makes `create_channel_title` return a 101-character
title: the claimed 100-character bound does not hold (the truncation budget
reserves 7 characters for 8 fixed ones). -/
theorem channel_title_counterexample :
    long_track.is_playing = true ∧
    100 < (create_channel_title (some long_track)).length := by
  exact ⟨rfl, by decide⟩

/-- **C7 (amended)** For every playing track with present name and artist
strings, the rendered channel title is at most 101 characters (100 when no
truncation happens, up to 101 through the truncation branch), and it contains
a non-empty prefix of the name and of the artist whenever they are
non-empty. -/
theorem channel_title_bounded (t : Track) (nm ar : String)
    (hplay : t.is_playing = true) (hn : t.name = some nm) (ha : t.artist = some ar) :
    (create_channel_title (some t)).length ≤ 101 ∧
    (nm.data ≠ [] → ∃ k, 0 < k ∧ nm.data.take k ≠ [] ∧
      containsSubstring (nm.data.take k) (create_channel_title (some t)) = true) ∧
    (ar.data ≠ [] → ∃ k, 0 < k ∧ ar.data.take k ≠ [] ∧
      containsSubstring (ar.data.take k) (create_channel_title (some t)) = true) := by
  have hform : create_channel_title (some t) =
      (if 100 < ("🎵 ".data ++ nm.data ++ " - ".data ++ ar.data).length then
        "🎵 ".data ++ nm.data.take (min nm.data.length 46) ++ " - ".data ++
          ar.data.take (93 - min nm.data.length 46) ++ "...".data
      else "🎵 ".data ++ nm.data ++ " - ".data ++ ar.data) := by
    unfold create_channel_title
    simp only [hplay, hn, ha, Option.getD_some, Bool.not_true, Bool.false_eq_true,
      if_false]
  rw [hform]
  by_cases hlen : 100 < ("🎵 ".data ++ nm.data ++ " - ".data ++ ar.data).length
  · rw [if_pos hlen]
    refine ⟨?_, ?_, ?_⟩
    · simp only [List.length_append, List.length_take, List.length_cons,
        List.length_nil]
      omega
    · intro hne
      have hpos : 0 < nm.data.length := List.length_pos.mpr hne
      refine ⟨min nm.data.length 46, by omega, ?_, ?_⟩
      · apply (List.length_pos (l := nm.data.take (min nm.data.length 46))).mp
        rw [List.length_take]
        omega
      · have hre : "🎵 ".data ++ nm.data.take (min nm.data.length 46) ++ " - ".data ++
            ar.data.take (93 - min nm.data.length 46) ++ "...".data =
            "🎵 ".data ++ (nm.data.take (min nm.data.length 46) ++
              (" - ".data ++ ar.data.take (93 - min nm.data.length 46) ++ "...".data)) := by
          simp [List.append_assoc]
        rw [hre]
        exact containsSubstring_append_left _ _ _
          (containsSubstring_of_match _ _ (charsMatch_append _ _))
    · intro hne
      have hpos : 0 < ar.data.length := List.length_pos.mpr hne
      refine ⟨93 - min nm.data.length 46, by omega, ?_, ?_⟩
      · apply (List.length_pos (l := ar.data.take (93 - min nm.data.length 46))).mp
        rw [List.length_take]
        omega
      · have hre : "🎵 ".data ++ nm.data.take (min nm.data.length 46) ++ " - ".data ++
            ar.data.take (93 - min nm.data.length 46) ++ "...".data =
            ("🎵 ".data ++ nm.data.take (min nm.data.length 46) ++ " - ".data) ++
              (ar.data.take (93 - min nm.data.length 46) ++ "...".data) := by
          simp [List.append_assoc]
        rw [hre]
        exact containsSubstring_append_left _ _ _
          (containsSubstring_of_match _ _ (charsMatch_append _ _))
  · rw [if_neg hlen]
    refine ⟨by omega, ?_, ?_⟩
    · intro hne
      have hpos : 0 < nm.data.length := List.length_pos.mpr hne
      refine ⟨nm.data.length, hpos, ?_, ?_⟩
      · rw [List.take_length]
        exact hne
      · rw [List.take_length]
        have hre : "🎵 ".data ++ nm.data ++ " - ".data ++ ar.data =
            "🎵 ".data ++ (nm.data ++ (" - ".data ++ ar.data)) := by
          simp [List.append_assoc]
        rw [hre]
        exact containsSubstring_append_left _ _ _
          (containsSubstring_of_match _ _ (charsMatch_append _ _))
    · intro hne
      have hpos : 0 < ar.data.length := List.length_pos.mpr hne
      refine ⟨ar.data.length, hpos, ?_, ?_⟩
      · rw [List.take_length]
        exact hne
      · rw [List.take_length]
        exact containsSubstring_append_left _ _ _
          (containsSubstring_of_match _ _ (charsMatch_refl _))

/-- Closed witness for `channel_title_bounded` on a short playing track. -/
theorem channel_title_bounded_witness :
    (create_channel_title (some short_track)).length ≤ 101 :=
  (channel_title_bounded short_track "Song" "Band" rfl rfl rfl).1
